import Mathlib

/-!
Verification development for the doc-agent-server repository.

The definitions below are a shallow embedding of the TypeScript source:
MongoDB collections become lists inside an explicit `Store`, `async`
methods that may `throw` become functions into `Except String`, and the
JavaScript-specific behaviours that the control flow depends on
(truthiness of strings and numbers, `||` defaulting, `String.prototype.includes`,
`Array.prototype.indexOf`) are modelled by the small `js*` helpers.
Timestamps, logging and fields never consulted by the verified claims
(settings objects, agent history, attachments) are omitted.
-/

/-! ## JavaScript-semantics helpers -/

/-- Truthiness of an optional string value (`undefined` and `""` are falsy). -/
def jsTruthyS : Option String → Bool
  | some s => s != ""
  | none => false

/-- The `a || d` default for an optional string (`""` falls back to `d`). -/
def jsOrStr : Option String → String → String
  | some s, d => if s == "" then d else s
  | none, d => d

/-- The `a || d` default for an optional number (`0` falls back to `d`). -/
def jsOrInt : Option Int → Int → Int
  | some n, d => if n == 0 then d else n
  | none, d => d

/-- Whether `pre` is a leading segment of `l` (character lists). -/
def charsPre : List Char → List Char → Bool
  | [], _ => true
  | _ :: _, [] => false
  | c :: cs, d :: ds => c == d && charsPre cs ds

/-- Whether `sub` occurs contiguously inside `l` (character lists). -/
def charsIncl (sub : List Char) : List Char → Bool
  | [] => charsPre sub []
  | l@(_ :: rest) => charsPre sub l || charsIncl sub rest

/-- Model of `String.prototype.includes`: `strIncludes s sub` is true when `sub`
occurs as a substring of `s`. -/
def strIncludes (s sub : String) : Bool :=
  charsIncl sub.data s.data

/-- Hexadecimal digit test, for ObjectId validation. -/
def hexDigit (c : Char) : Bool :=
  c.isDigit || (('a' ≤ c) && (c ≤ 'f')) || (('A' ≤ c) && (c ≤ 'F'))

/-- Model of `ObjectId.isValid` of the MongoDB driver on a string input:
a 12-character string or a 24-character hex string. -/
def isValidObjectId (s : String) : Bool :=
  s.length == 12 || (s.length == 24 && s.data.all hexDigit)

/-- Model of `Array.prototype.indexOf` on a string list: the index of the first
occurrence, or `-1` when absent. -/
def jsIndexOf : List String → String → Int
  | [], _ => -1
  | x :: xs, a =>
    if x == a then 0
    else
      let r := jsIndexOf xs a
      if r == -1 then -1 else r + 1

/-- Model of `toLowerCase()`, per character (all compared keywords are
ASCII). -/
def strToLower (s : String) : String :=
  ⟨s.data.map Char.toLower⟩

/-- Model of `String.prototype.trim` / `String.trim`: strip leading and trailing
whitespace. -/
def strTrim (s : String) : String :=
  ⟨((s.data.dropWhile Char.isWhitespace).reverse.dropWhile Char.isWhitespace).reverse⟩

/-! ## Data model (src/types/index.ts, fields used by the verified claims) -/

/-- An organization membership entry (`members` array element). -/
structure OrgMember where
  userId : String
  role : String
deriving Repr, DecidableEq

/-- An organization record. -/
structure OrganizationData where
  _id : String
  slug : String
  members : List OrgMember
  isActive : Bool
deriving Repr, DecidableEq

/-- A project membership entry. -/
structure ProjectMember where
  userId : String
  role : String
deriving Repr, DecidableEq

/-- A project record. -/
structure ProjectData where
  _id : String
  organizationId : String
  visibility : String
  members : List ProjectMember
  isActive : Bool
deriving Repr, DecidableEq

/-- An agent record. -/
structure AgentData where
  _id : String
  organizationId : String
  isActive : Bool
  isPublic : Bool
deriving Repr, DecidableEq

/-- A column record. -/
structure ColumnData where
  _id : String
  projectId : String
  title : String
  name : String
  position : Int
  visibility : String
  createdBy : String
deriving Repr, DecidableEq

/-- A task record. -/
structure TaskData where
  _id : String
  projectId : String
  columnId : String
  title : String
  description : Option String
  type : String
  status : String
  priority : String
  tokenEstimate : Int
  position : Int
  tags : List String
  createdBy : String
deriving Repr, DecidableEq

/-- The persistent state: one list per MongoDB collection, plus a counter
from which the driver-assigned `insertedId` of the next insert is derived. -/
structure Store where
  organizations : List OrganizationData
  projects : List ProjectData
  agents : List AgentData
  columns : List ColumnData
  tasks : List TaskData
  nextOid : Nat
deriving Repr, DecidableEq

/-- The driver-assigned id of the next inserted document. -/
def freshOid (s : Store) : String :=
  "oid_" ++ toString s.nextOid

/-! ## MongoService reads (src/services/mongoService.ts) -/

/-- Model of `MongoService.getOrganization`: throws on a malformed id, otherwise
`findOne` restricted to active documents. -/
def getOrganizationE (s : Store) (organizationId : String) :
    Except String (Option OrganizationData) :=
  if isValidObjectId organizationId then
    .ok (s.organizations.find? (fun o => o._id == organizationId && o.isActive))
  else
    .error "Invalid organization ID format"

/-- Model of `MongoService.getProject`. -/
def getProjectE (s : Store) (projectId : String) :
    Except String (Option ProjectData) :=
  if isValidObjectId projectId then
    .ok (s.projects.find? (fun p => p._id == projectId && p.isActive))
  else
    .error "Invalid project ID format"

/-- Model of `MongoService.getAgent`. -/
def getAgentE (s : Store) (agentId : String) :
    Except String (Option AgentData) :=
  if isValidObjectId agentId then
    .ok (s.agents.find? (fun a => a._id == agentId && a.isActive))
  else
    .error "Invalid agent ID format"

/-- Model of `MongoService.getColumn` (columns carry no `isActive` flag). -/
def getColumnE (s : Store) (columnId : String) :
    Except String (Option ColumnData) :=
  if isValidObjectId columnId then
    .ok (s.columns.find? (fun c => c._id == columnId))
  else
    .error "Invalid column ID format"

/-- Model of `MongoService.getTask`. -/
def getTaskE (s : Store) (taskId : String) :
    Except String (Option TaskData) :=
  if isValidObjectId taskId then
    .ok (s.tasks.find? (fun t => t._id == taskId))
  else
    .error "Invalid task ID format"

/-- Stable insertion of a column into a position-sorted list. -/
def insertColumnByPosition (c : ColumnData) : List ColumnData → List ColumnData
  | [] => [c]
  | x :: xs => if c.position ≤ x.position then c :: x :: xs else x :: insertColumnByPosition c xs

/-- Stable sort of columns by ascending `position` (the `sort position:1`
of the MongoDB query). -/
def sortColumnsByPosition : List ColumnData → List ColumnData
  | [] => []
  | x :: xs => insertColumnByPosition x (sortColumnsByPosition xs)

/-- Model of `MongoService.getColumnsByProject`: the project's columns ordered by
ascending position. -/
def getColumnsByProjectE (s : Store) (projectId : String) :
    Except String (List ColumnData) :=
  if isValidObjectId projectId then
    .ok (sortColumnsByPosition (s.columns.filter (fun c => c.projectId == projectId)))
  else
    .error "Invalid project ID format"

/-- The tasks of one column, as filtered by `createTask`'s max-position query
(`findOne { projectId, columnId } sort position:-1`). -/
def tasksInColumn (s : Store) (projectId columnId : String) : List TaskData :=
  s.tasks.filter (fun t => t.projectId == projectId && t.columnId == columnId)

/-- Fold selecting a task of maximal `position` (later strictly greater
elements win, matching a descending-sort `findOne`). -/
def maxByPosGo (best : TaskData) : List TaskData → TaskData
  | [] => best
  | x :: xs => maxByPosGo (if x.position > best.position then x else best) xs

/-- The document returned by a `findOne` with `sort position:-1`:
some task of maximal position, or `none` on an empty collection. -/
def maxByPosition : List TaskData → Option TaskData
  | [] => none
  | t :: ts => some (maxByPosGo t ts)

/-! ## MongoService mutations -/

/-- Model of `MongoService.createTask`'s request payload (fields the claims touch;
`agents`, `assignees`, `dueDate`, `dependencies` are omitted). -/
structure CreateTaskRequest where
  projectId : String
  columnId : String
  title : String
  description : Option String
  type : String
  status : Option String
  priority : Option String
  tokenEstimate : Option Int
  tags : Option (List String)
deriving Repr, DecidableEq

/-- The `position` computed by `MongoService.createTask`: one past the
column's current maximum, or `0` for an empty column. -/
def nextTaskPosition (s : Store) (projectId columnId : String) : Int :=
  match maxByPosition (tasksInColumn s projectId columnId) with
  | some maxDoc => maxDoc.position + 1
  | none => 0

/-- The task document `MongoService.createTask` inserts. -/
def newTaskDoc (s : Store) (data : CreateTaskRequest) (createdBy : String) :
    TaskData :=
  { _id := freshOid s,
    projectId := data.projectId,
    columnId := data.columnId,
    title := data.title,
    description := data.description,
    type := data.type,
    status := jsOrStr data.status "backlog",
    priority := jsOrStr data.priority "medium",
    tokenEstimate := jsOrInt data.tokenEstimate 0,
    position := nextTaskPosition s data.projectId data.columnId,
    tags := data.tags.getD [],
    createdBy := createdBy }

/-- Model of `MongoService.createTask`: validates both ids, requires the project and
the column to exist, computes `position` as one past the column's current
maximum (or `0`), and inserts the document. -/
def createTask (s : Store) (data : CreateTaskRequest) (createdBy : String) :
    Except String (TaskData × Store) :=
  if ¬ isValidObjectId data.projectId then .error "Invalid project ID format"
  else if ¬ isValidObjectId data.columnId then .error "Invalid column ID format"
  else
    match s.projects.find? (fun p => p._id == data.projectId && p.isActive) with
    | none => .error "Project not found"
    | some _ =>
      match s.columns.find? (fun c => c._id == data.columnId) with
      | none => .error "Column not found"
      | some _ =>
        .ok (newTaskDoc s data createdBy,
          { s with tasks := s.tasks ++ [newTaskDoc s data createdBy],
                   nextOid := s.nextOid + 1 })

/-- The position `MongoService.moveTask` writes: the explicit one when
supplied, otherwise one past the target column's current maximum. -/
def moveTaskPosition (s : Store) (newColumnId : String) : Option Int → Int
  | some p => p
  | none =>
    match maxByPosition (s.tasks.filter (fun t => t.columnId == newColumnId)) with
    | some maxDoc => maxDoc.position + 1
    | none => 0

/-- The task document after `moveTask`'s `$set`. -/
def movedTaskDoc (t0 : TaskData) (newColumnId : String) (pos : Int) : TaskData :=
  { t0 with columnId := newColumnId, position := pos }

/-- Model of `findOneAndUpdate` on the tasks collection: rewrite the document whose
`_id` matches (ids are unique in a MongoDB collection). -/
def replaceTaskById (tasks : List TaskData) (taskId : String) (t1 : TaskData) :
    List TaskData :=
  tasks.map (fun t => if t._id == taskId then t1 else t)

/-- Model of `MongoService.moveTask`: validates both ids, requires the target column
to exist, uses the explicit position when supplied (otherwise one past the
target column's maximum), and updates the task document in place
(`findOneAndUpdate` with `returnDocument: after`; `null` when the task is
missing). -/
def moveTask (s : Store) (taskId newColumnId : String) (newPosition : Option Int) :
    Except String (Option TaskData × Store) :=
  if ¬ isValidObjectId taskId then .error "Invalid task ID format"
  else if ¬ isValidObjectId newColumnId then .error "Invalid column ID format"
  else
    match s.columns.find? (fun c => c._id == newColumnId) with
    | none => .error "Target column not found"
    | some _ =>
      match s.tasks.find? (fun t => t._id == taskId) with
      | none => .ok (none, s)
      | some t0 =>
        .ok (some (movedTaskDoc t0 newColumnId (moveTaskPosition s newColumnId newPosition)),
          { s with tasks := (replaceTaskById s.tasks taskId
            (movedTaskDoc t0 newColumnId (moveTaskPosition s newColumnId newPosition))) })

/-- Model of `updateOne` on a keyed collection: rewrite the first document matching
the predicate (MongoDB updates at most one document for `updateOne`). -/
def updateFirstBy {α : Type} (p : α → Bool) (f : α → α) : List α → List α
  | [] => []
  | x :: xs => if p x then f x :: xs else x :: updateFirstBy p f xs

/-- Model of `MongoService.deleteOrganization`: soft delete (`$set isActive:false`);
the boolean is `modifiedCount === 1`, which holds exactly when a document
matched (the update always rewrites `updatedAt`). -/
def deleteOrganization (s : Store) (organizationId : String) :
    Except String (Bool × Store) :=
  if ¬ isValidObjectId organizationId then .error "Invalid organization ID format"
  else
    let updated := updateFirstBy (fun o => o._id == organizationId)
      (fun o => { o with isActive := false }) s.organizations
    .ok (s.organizations.any (fun o => o._id == organizationId), { s with organizations := updated })

/-- Model of `MongoService.deleteProject`: soft delete. -/
def deleteProject (s : Store) (projectId : String) :
    Except String (Bool × Store) :=
  if ¬ isValidObjectId projectId then .error "Invalid project ID format"
  else
    let updated := updateFirstBy (fun p => p._id == projectId)
      (fun p => { p with isActive := false }) s.projects
    .ok (s.projects.any (fun p => p._id == projectId), { s with projects := updated })

/-- Model of `MongoService.deleteAgent`: soft delete. -/
def deleteAgent (s : Store) (agentId : String) :
    Except String (Bool × Store) :=
  if ¬ isValidObjectId agentId then .error "Invalid agent ID format"
  else
    let updated := updateFirstBy (fun a => a._id == agentId)
      (fun a => { a with isActive := false }) s.agents
    .ok (s.agents.any (fun a => a._id == agentId), { s with agents := updated })

/-- Model of `MongoService.deleteColumn`: hard delete; first `deleteMany` removes all
tasks of the column, then `deleteOne` removes the column itself. -/
def deleteColumn (s : Store) (columnId : String) :
    Except String (Bool × Store) :=
  if ¬ isValidObjectId columnId then .error "Invalid column ID format"
  else
    let tasks1 := s.tasks.filter (fun t => ¬ (t.columnId == columnId))
    let columns1 := s.columns.eraseP (fun c => c._id == columnId)
    .ok (s.columns.any (fun c => c._id == columnId), { s with tasks := tasks1, columns := columns1 })

/-- Model of `MongoService.deleteTask`: hard delete (`deleteOne`). -/
def deleteTask (s : Store) (taskId : String) :
    Except String (Bool × Store) :=
  if ¬ isValidObjectId taskId then .error "Invalid task ID format"
  else
    let tasks1 := s.tasks.eraseP (fun t => t._id == taskId)
    .ok (s.tasks.any (fun t => t._id == taskId), { s with tasks := tasks1 })

/-! ## AuthorizationUtils (src/utils/authorization.ts) -/

/-- The result record of the access checks. Each TypeScript check returns a
record with `hasAccess` plus whatever context objects it resolved; here the
context fields are gathered in one structure with `none` for the absent ones. -/
structure AccessResult where
  hasAccess : Bool
  role : Option String := none
  organization : Option OrganizationData := none
  project : Option ProjectData := none
  task : Option TaskData := none
  agent : Option AgentData := none
  column : Option ColumnData := none
deriving Repr, DecidableEq

/-- The `catch` wrapper shared by every check: any internal error resolves
to a bare denial. -/
def catchAccess : Except String AccessResult → AccessResult
  | .ok r => r
  | .error _ => { hasAccess := false }

/-- Body of `AuthorizationUtils.hasOrganizationAccess` (inside its `try`). -/
def hasOrganizationAccessE (s : Store) (organizationId userId : String)
    (requiredRoles : List String) : Except String AccessResult := do
  let organization? ← getOrganizationE s organizationId
  match organization? with
  | none => pure { hasAccess := false }
  | some organization =>
    match organization.members.find? (fun m => m.userId == userId) with
    | none => pure { hasAccess := false, organization := some organization }
    | some membership =>
      if requiredRoles.length > 0 && ¬ requiredRoles.contains membership.role then
        pure { hasAccess := false, role := some membership.role,
               organization := some organization }
      else
        pure { hasAccess := true, role := some membership.role,
               organization := some organization }

/-- Model of `AuthorizationUtils.hasOrganizationAccess`. -/
def hasOrganizationAccess (s : Store) (organizationId userId : String)
    (requiredRoles : List String) : AccessResult :=
  catchAccess (hasOrganizationAccessE s organizationId userId requiredRoles)

/-- Body of `AuthorizationUtils.hasProjectAccess` (inside its `try`). -/
def hasProjectAccessE (s : Store) (projectId userId : String)
    (requiredRoles : List String) : Except String AccessResult := do
  let project? ← getProjectE s projectId
  match project? with
  | none => pure { hasAccess := false }
  | some project =>
    let orgCheck := hasOrganizationAccess s project.organizationId userId []
    if ¬ orgCheck.hasAccess then
      pure { hasAccess := false, project := some project,
             organization := orgCheck.organization }
    else
      let projectMembership := project.members.find? (fun m => m.userId == userId)
      if project.visibility == "private" && projectMembership.isNone then
        pure { hasAccess := false, project := some project,
               organization := orgCheck.organization }
      else
        let userRole := jsOrStr (projectMembership.map (fun m => m.role)) "viewer"
        if requiredRoles.length > 0 && ¬ requiredRoles.contains userRole then
          pure { hasAccess := false, role := some userRole, project := some project,
                 organization := orgCheck.organization }
        else
          pure { hasAccess := true, role := some userRole, project := some project,
                 organization := orgCheck.organization }

/-- Model of `AuthorizationUtils.hasProjectAccess`. -/
def hasProjectAccess (s : Store) (projectId userId : String)
    (requiredRoles : List String) : AccessResult :=
  catchAccess (hasProjectAccessE s projectId userId requiredRoles)

/-- Body of `AuthorizationUtils.hasTaskAccess` (inside its `try`). -/
def hasTaskAccessE (s : Store) (taskId userId : String)
    (requiredRoles : List String) : Except String AccessResult := do
  let task? ← getTaskE s taskId
  match task? with
  | none => pure { hasAccess := false }
  | some task =>
    let projectCheck := hasProjectAccess s task.projectId userId requiredRoles
    pure { hasAccess := projectCheck.hasAccess, role := projectCheck.role,
           task := some task, project := projectCheck.project,
           organization := projectCheck.organization }

/-- Model of `AuthorizationUtils.hasTaskAccess`. -/
def hasTaskAccess (s : Store) (taskId userId : String)
    (requiredRoles : List String) : AccessResult :=
  catchAccess (hasTaskAccessE s taskId userId requiredRoles)

/-- Body of `AuthorizationUtils.hasAgentAccess` (inside its `try`). -/
def hasAgentAccessE (s : Store) (agentId userId : String)
    (requiredRoles : List String) : Except String AccessResult := do
  let agent? ← getAgentE s agentId
  match agent? with
  | none => pure { hasAccess := false }
  | some agent =>
    if agent.isPublic then
      pure { hasAccess := true, agent := some agent }
    else
      let orgCheck := hasOrganizationAccess s agent.organizationId userId requiredRoles
      pure { hasAccess := orgCheck.hasAccess, role := orgCheck.role,
             agent := some agent, organization := orgCheck.organization }

/-- Model of `AuthorizationUtils.hasAgentAccess`. -/
def hasAgentAccess (s : Store) (agentId userId : String)
    (requiredRoles : List String) : AccessResult :=
  catchAccess (hasAgentAccessE s agentId userId requiredRoles)

/-- Body of `AuthorizationUtils.hasColumnAccess` (inside its `try`). -/
def hasColumnAccessE (s : Store) (columnId userId : String)
    (requiredRoles : List String) : Except String AccessResult := do
  let column? ← getColumnE s columnId
  match column? with
  | none => pure { hasAccess := false }
  | some column =>
    let projectCheck := hasProjectAccess s column.projectId userId requiredRoles
    if ¬ projectCheck.hasAccess then
      pure { hasAccess := false, column := some column,
             project := projectCheck.project, organization := projectCheck.organization }
    else
      if column.visibility == "private" && column.createdBy != userId &&
          ((projectCheck.project.map
            (fun p => (p.members.find? (fun m => m.userId == userId)).isNone)).getD true) then
        pure { hasAccess := false, column := some column,
               project := projectCheck.project, organization := projectCheck.organization }
      else
        pure { hasAccess := true, role := projectCheck.role, column := some column,
               project := projectCheck.project, organization := projectCheck.organization }

/-- Model of `AuthorizationUtils.hasColumnAccess`. -/
def hasColumnAccess (s : Store) (columnId userId : String)
    (requiredRoles : List String) : AccessResult :=
  catchAccess (hasColumnAccessE s columnId userId requiredRoles)

/-- Model of `AuthorizationUtils.getRoleHierarchy`. -/
def getRoleHierarchy : List String :=
  ["viewer", "member", "editor", "admin", "owner"]

/-- Model of `AuthorizationUtils.hasMinimumRole`: index comparison in the role
hierarchy, with `-1` (absent role) denying access. -/
def hasMinimumRole (userRole minimumRole : String) : Bool :=
  let userIndex := jsIndexOf getRoleHierarchy userRole
  let requiredIndex := jsIndexOf getRoleHierarchy minimumRole
  userIndex != -1 && requiredIndex != -1 && decide (userIndex ≥ requiredIndex)

/-! ## IntentService (src/services/intentService.ts) -/

/-- The intent part of an analysis result. Confidences (0.3 / 0.5 / 0.6)
are modelled as rationals. -/
structure AIIntent where
  primary : String
  secondary : Option String := none
  confidence : ℚ
deriving Repr, DecidableEq

/-- Model of `IntentService.containsCreateTaskKeywords`. -/
def containsCreateTaskKeywords (input : String) : Bool :=
  ["create task", "add task", "new task", "make task"].any
    (fun keyword => strIncludes input keyword)

/-- Model of `IntentService.containsTaskManagementKeywords`. -/
def containsTaskManagementKeywords (input : String) : Bool :=
  ["update task", "edit task", "move task", "delete task", "modify task",
   "change task"].any (fun keyword => strIncludes input keyword)

/-- Model of `IntentService.containsAgentKeywords`. -/
def containsAgentKeywords (input : String) : Bool :=
  ["assign agent", "agent assignment", "assign to agent", "agent to task"].any
    (fun keyword => strIncludes input keyword)

/-- Model of `IntentService.containsProjectKeywords`. -/
def containsProjectKeywords (input : String) : Bool :=
  ["create project", "create column", "project management",
   "column management"].any (fun keyword => strIncludes input keyword)

/-- Model of `IntentService.containsAgentUseKeywords`. -/
def containsAgentUseKeywords (input : String) : Bool :=
  ["run agent", "execute agent", "use agent", "agent execution"].any
    (fun keyword => strIncludes input keyword)

/-- Model of `IntentService.getFallbackIntent`: the deterministic keyword matcher over
the lowercased input (entities are always empty in the fallback). -/
def getFallbackIntent (input : String) : AIIntent :=
  let inputL := strToLower input
  if containsCreateTaskKeywords inputL then
    { primary := "task_creation", confidence := 0.6 }
  else if containsTaskManagementKeywords inputL then
    { primary := "task_management", confidence := 0.6 }
  else if containsAgentKeywords inputL then
    { primary := "agent_assignment", confidence := 0.6 }
  else if containsProjectKeywords inputL then
    { primary := "project_management", confidence := 0.5 }
  else if containsAgentUseKeywords inputL then
    { primary := "agent_use", confidence := 0.6 }
  else
    { primary := "general_answer", confidence := 0.3 }

/-- A successfully parsed provider reply for intent classification. -/
structure ProviderIntentReply where
  primary : String
  secondary : Option String
  confidence : ℚ
deriving Repr, DecidableEq

/-- Model of `IntentService.analyzeIntent`: the provider round trip is an opaque
collaborator, so its outcome is a parameter; `none` stands for every failure
inside the `try` (timeout, non-2xx, empty content, malformed JSON), which the
`catch` resolves through the deterministic fallback matcher — the error is
never propagated. -/
def analyzeIntent (providerOutcome : Option ProviderIntentReply)
    (input : String) : AIIntent :=
  match providerOutcome with
  | some reply =>
    { primary := reply.primary, secondary := reply.secondary,
      confidence := reply.confidence }
  | none => getFallbackIntent input

/-! ## AI tools (src/services/aiTools.ts) -/

/-- A JSON-like value for tool-call argument payloads. -/
inductive JsonVal where
  | str : String → JsonVal
  | num : Int → JsonVal
  | boolean : Bool → JsonVal
  | arr : List JsonVal → JsonVal
deriving Repr, BEq

/-- A parsed tool-call argument object. -/
def ToolParams := List (String × JsonVal)
deriving Repr, BEq

/-- Reading a string-typed parameter (absent or non-string gives `none`,
which is falsy). -/
def getParamStr (params : ToolParams) (key : String) : Option String :=
  match List.lookup key params with
  | some (JsonVal.str s) => some s
  | _ => none

/-- Reading a number-typed parameter. -/
def getParamInt (params : ToolParams) (key : String) : Option Int :=
  match List.lookup key params with
  | some (JsonVal.num n) => some n
  | _ => none

/-- Reading a string-array parameter. -/
def getParamStrList (params : ToolParams) (key : String) : Option (List String) :=
  match List.lookup key params with
  | some (JsonVal.arr xs) =>
    some (xs.filterMap (fun v => match v with | JsonVal.str s => some s | _ => none))
  | _ => none

/-- The value a tool execution returns (`create_task` returns the stored
task; the other modelled shapes carry a rendered payload). -/
inductive ToolData where
  | task : TaskData → ToolData
  | column : ColumnData → ToolData
  | raw : String → ToolData
deriving Repr, BEq

/-- Model of `JSON.stringify` of a tool result, abstracted to a plain rendering
(only ever interpolated into the chat message, which no claim inspects). -/
def stringifyToolData : Option ToolData → String
  | some (ToolData.task t) => "task " ++ t._id
  | some (ToolData.column c) => "column " ++ c._id
  | some (ToolData.raw s) => s
  | none => "undefined"

/-- The `context` record passed to tool executions (the `mongoService`
handle is the explicit `Store` threaded separately). -/
structure AIToolContext where
  userId : String
  projectId : String
  organizationId : String
deriving Repr, DecidableEq

/-- Model of `AIToolResult`. -/
structure AIToolResult where
  success : Bool
  data : Option ToolData := none
  error : Option String := none
deriving Repr, BEq

/-- A registered tool: a name and an execution function. The JSON-schema
`parameters` declaration is not consulted by any modelled control flow and
is omitted. A tool runs against the store and always hands the (possibly
mutated) store back, alongside a value or a thrown message. -/
structure AITool where
  name : String
  execute : ToolParams → AIToolContext → Store → Except String ToolData × Store

/-- The names registered by `AIToolsService.initializeTools`, in
registration order. -/
def registeredToolNames : List String :=
  ["create_project", "get_project_info", "update_project",
   "create_task", "update_task", "delete_task", "move_task", "search_tasks",
   "analyze_tasks",
   "create_column", "update_column", "delete_column",
   "assign_agent", "run_agent",
   "get_project_analytics", "get_task_stats"]

/-- Model of `AIToolsService.executeTool`: unknown names produce a typed failure
record; a known tool runs with every thrown error caught into a failure
record; the function itself never throws. -/
def executeTool (tools : List AITool) (toolName : String) (parameters : ToolParams)
    (context : AIToolContext) (s : Store) : AIToolResult × Store :=
  match tools.find? (fun tool => tool.name == toolName) with
  | none =>
    ({ success := false, error := some ("Tool \x27" ++ toolName ++ "\x27 not found") }, s)
  | some tool =>
    match tool.execute parameters context s with
    | (Except.ok value, s1) => ({ success := true, data := some value }, s1)
    | (Except.error e, s1) => ({ success := false, error := some e }, s1)

/-- The status-to-column-phrase table of `createTaskTool.execute`
(`defaultMappings`). -/
def defaultMappings : List (String × List String) :=
  [("backlog", ["backlog", "todo", "ideas", "new"]),
   ("ready", ["ready", "to do", "todo", "planned"]),
   ("in_progress", ["in progress", "doing", "wip", "active", "working"]),
   ("done", ["done", "completed", "finished", "complete"]),
   ("blocked", ["blocked", "waiting", "hold"]),
   ("cancelled", ["cancelled", "canceled", "rejected"])]

/-- Case-insensitive exact match of a requested column name against a
column's `name` or `title`. -/
def colNameExact (columnName : String) (col : ColumnData) : Bool :=
  strToLower col.name == strToLower columnName || strToLower col.title == strToLower columnName

/-- Whether a column's lowercased `title` or `name` contains the pattern. -/
def colContainsPattern (pattern : String) (col : ColumnData) : Bool :=
  strIncludes (strToLower col.title) pattern || strIncludes (strToLower col.name) pattern

/-- The `for pattern of patterns` loop: the id of the first column matched
by the first matching pattern. -/
def firstPatternMatch (patterns : List String) (columns : List ColumnData) :
    Option String :=
  match patterns with
  | [] => none
  | p :: ps =>
    match columns.find? (colContainsPattern p) with
    | some col => some col._id
    | none => firstPatternMatch ps columns

/-- The column-selection logic of `createTaskTool.execute` (lines 249-309):
explicit `columnId` wins; else a truthy `columnName` is matched exactly
(case-insensitively); else the status-keyed phrase table; else the generic
patterns; else the first column of the (position-sorted) list. Every `!x`
test in the source is JavaScript truthiness, so an empty-string id falls
through like an absent one. -/
def createTaskResolveColumnId (params : ToolParams) (columns : List ColumnData) :
    Option String :=
  let columnId0 := getParamStr params "columnId"
  let columnId1 :=
    if (!jsTruthyS columnId0) && jsTruthyS (getParamStr params "columnName") then
      match getParamStr params "columnName" with
      | some columnName => (columns.find? (colNameExact columnName)).map (fun c => c._id)
      | none => columnId0
    else columnId0
  if jsTruthyS columnId1 then columnId1
  else
    let columnId2 :=
      match getParamStr params "status" with
      | some status =>
        if status != "" then
          firstPatternMatch ((List.lookup status defaultMappings).getD []) columns
        else none
      | none => none
    if jsTruthyS columnId2 then columnId2
    else
      let columnId3 := firstPatternMatch ["backlog", "todo", "ready", "new"] columns
      if jsTruthyS columnId3 then columnId3
      else (columns.head?).map (fun c => c._id)

/-- Modelled from the spec (claim C6 wording): the priority-ordered column
resolution — case-insensitive exact match of the supplied `columnName`
against column name or title; else the status-keyed phrase table matched as
substring; else the generic patterns backlog/todo/ready/new; else the
project's first column by position. Stated for comparison with the
source-derived `createTaskResolveColumnId`. -/
def specResolveColumn (params : ToolParams) (columns : List ColumnData) :
    Option String :=
  let exact :=
    match getParamStr params "columnName" with
    | some columnName =>
      if columnName != "" then
        (columns.find? (colNameExact columnName)).map (fun c => c._id)
      else none
    | none => none
  if jsTruthyS exact then exact
  else
    let byStatus :=
      match getParamStr params "status" with
      | some status =>
        if status != "" then
          firstPatternMatch ((List.lookup status defaultMappings).getD []) columns
        else none
      | none => none
    if jsTruthyS byStatus then byStatus
    else
      let generic := firstPatternMatch ["backlog", "todo", "ready", "new"] columns
      if jsTruthyS generic then generic
      else (columns.head?).map (fun c => c._id)

/-- The tail of `createTaskTool.execute`: fail when no column was resolved,
otherwise build the `CreateTaskRequest` with the tool-level defaults
(`type: custom`, `status: backlog`, `priority: medium`, `tokenEstimate: 500`)
and store the task. -/
def createTaskWithResolved (params : ToolParams) (context : AIToolContext)
    (s : Store) (columnId? : Option String) : Except String ToolData × Store :=
  if ¬ jsTruthyS columnId? then
    (.error "No columns found in project. Create columns first.", s)
  else
    let taskData : CreateTaskRequest := {
      projectId := context.projectId,
      columnId := columnId?.getD "",
      title := (getParamStr params "title").getD "",
      description := getParamStr params "description",
      type := jsOrStr (getParamStr params "type") "custom",
      status := some (jsOrStr (getParamStr params "status") "backlog"),
      priority := some (jsOrStr (getParamStr params "priority") "medium"),
      tokenEstimate := some (jsOrInt (getParamInt params "tokenEstimate") 500),
      tags := some ((getParamStrList params "tags").getD []) }
    match createTask s taskData context.userId with
    | .ok (task, s1) => (.ok (ToolData.task task), s1)
    | .error e => (.error e, s)

/-- Model of `createTaskTool.execute`: with a truthy explicit `columnId` the column
list is never fetched; otherwise the project's columns are fetched (throwing
on a malformed project id) and the resolution chain runs. The source fetches
the same column list in up to two branches; both reads are the one pure
query, folded here into a single fetch. -/
def createTaskToolExecute (params : ToolParams) (context : AIToolContext)
    (s : Store) : Except String ToolData × Store :=
  if jsTruthyS (getParamStr params "columnId") then
    createTaskWithResolved params context s (getParamStr params "columnId")
  else
    match getColumnsByProjectE s context.projectId with
    | .error e => (.error e, s)
    | .ok columns =>
      createTaskWithResolved params context s (createTaskResolveColumnId params columns)

/-- The registered `create_task` tool. -/
def createTaskTool : AITool :=
  { name := "create_task", execute := createTaskToolExecute }

/-! ## Provider round trip and controller (src/services/openaiService.ts,
src/controllers/aiController.ts) -/

/-- One tool-call proposal in the provider's reply. `argumentsParsed` is the
`JSON.parse` of the raw argument string: `none` models a malformed payload
(skipped with a warning by the parsing loop). -/
structure ProviderToolCall where
  name : String
  argumentsParsed : Option ToolParams

/-- The provider's chat reply (the first choice's message plus usage): the
model provider is an external collaborator, so its output is data. An absent
usage block is already folded into `total_tokens` (`usage?.total_tokens || 0`). -/
structure ProviderChat where
  content : Option String
  tool_calls : List ProviderToolCall
  total_tokens : Nat

/-- A recorded tool call (`OpenAIToolCall`: name plus parsed parameters). -/
structure OpenAIToolCallRec where
  name : String
  parameters : ToolParams

/-- The tool-call loop of `OpenAIService.parseOpenAIResponse`: for each
proposal in order, skip it when its arguments fail to parse, otherwise
record it, execute it through `executeTool`, and append a success or failure
annotation to the message text. `executeTool` never throws, so the
surrounding per-call `catch` is dead. -/
def execToolCallsLoop (tools : List AITool) (context : AIToolContext) :
    List ProviderToolCall → String → List OpenAIToolCallRec → Store →
    String × List OpenAIToolCallRec × Store
  | [], message, calls, s => (message, calls, s)
  | tc :: rest, message, calls, s =>
    match tc.argumentsParsed with
    | none => execToolCallsLoop tools context rest message calls s
    | some parameters =>
      let calls1 := calls ++ [{ name := tc.name, parameters := parameters }]
      let (toolResult, s1) := executeTool tools tc.name parameters context s
      let message1 :=
        if toolResult.success then
          message ++ "\n\n✅ Successfully executed " ++ tc.name ++ ": " ++
            stringifyToolData toolResult.data
        else
          message ++ "\n\n❌ Failed to execute " ++ tc.name ++ ": " ++
            (toolResult.error.getD "undefined")
      execToolCallsLoop tools context rest message1 calls1 s1

/-- Model of `OpenAIService`'s reply record (`OpenAIResponse`). -/
structure OpenAIResponseRec where
  message : String
  tokensUsed : Nat
  toolCalls : List OpenAIToolCallRec

/-- Model of `OpenAIService.processWithTools`: on a provider failure the `catch`
rethrows, so the error propagates to the caller; on success the reply is
parsed, proposed tools are executed, and the trimmed message, token total
and recorded calls are returned. -/
def processWithTools (tools : List AITool) (context : AIToolContext)
    (chatOutcome : Except String ProviderChat) (s : Store) :
    Except String (OpenAIResponseRec × Store) :=
  match chatOutcome with
  | .error e => .error e
  | .ok chat =>
    let (message, calls, s1) :=
      execToolCallsLoop tools context chat.tool_calls (chat.content.getD "") [] s
    .ok ({ message := strTrim message, tokensUsed := chat.total_tokens,
           toolCalls := calls }, s1)

/-- Model of `EnhancedAIController.mapIntentToResponseType`. -/
def mapIntentToResponseType (intent : String) : String :=
  if intent == "task_creation" then "task_creation"
  else if intent == "task_management" then "task_management"
  else if intent == "agent_assignment" then "agent_assignment"
  else if intent == "project_management" then "project_management"
  else if intent == "agent_use" then "tool_execution"
  else if intent == "error" then "error"
  else if intent == "other" then "general_answer"
  else if intent == "general_answer" then "general_answer"
  else "general_answer"

/-- One entry of the response's `toolResults` list, as pushed by
`EnhancedAIController.processToolBasedRequest`: tool name, a hard-coded
`success: true`, the call's parameters as `result`, and `error: undefined`. -/
structure ToolResultEntry where
  tool : String
  success : Bool
  result : Option ToolParams
  error : Option String

/-- The controller's `AIResponse` (fields inspected by the claims). -/
structure AIResponseRec where
  type : String
  message : String
  tokensUsed : Nat
  toolResults : List ToolResultEntry

/-- Model of `EnhancedAIController.processToolBasedRequest`: runs the provider with
the tool catalog, then records one `toolResults` entry per proposed call —
always with `success: true` and no error, since the execution outcome stays
inside the message text. -/
def processToolBasedRequest (tools : List AITool) (context : AIToolContext)
    (intentPrimary : String) (chatOutcome : Except String ProviderChat)
    (s : Store) : Except String (AIResponseRec × Store) :=
  match processWithTools tools context chatOutcome s with
  | .error e => .error e
  | .ok (openaiResponse, s1) =>
    .ok ({ type := mapIntentToResponseType intentPrimary,
           message := openaiResponse.message,
           tokensUsed := openaiResponse.tokensUsed,
           toolResults := openaiResponse.toolCalls.map
             (fun tc => { tool := tc.name, success := true,
                          result := some tc.parameters, error := none }) }, s1)

/-- Model of `EnhancedAIController.processConversationalRequest` via
`OpenAIService.processConversation`: no tools run; provider failures rethrow. -/
def processConversationalRequest (chatOutcome : Except String ProviderChat)
    (s : Store) : Except String (AIResponseRec × Store) :=
  match chatOutcome with
  | .error e => .error e
  | .ok chat =>
    .ok ({ type := "general_answer", message := strTrim (chat.content.getD ""),
           tokensUsed := chat.total_tokens, toolResults := [] }, s)

/-- The request-body constraints of `enhancedAIRequestSchema` that involve
the modelled fields (`input` 1..2000 characters, non-empty `userId`). -/
def validateAIRequest (input userId : String) : Bool :=
  input.length ≥ 1 && input.length ≤ 2000 && userId.length ≥ 1

/-- The HTTP envelope written by the controller (`res.status(..).json(..)`;
`res.json` alone is status 200). -/
structure HttpResponseRec where
  status : Nat
  success : Bool
  dataType : Option String := none
  tokensUsed : Option Nat := none
  toolResults : Option (List ToolResultEntry) := none
  error : Option String := none

/-- Model of `EnhancedAIController.processAIRequest` after the authorization
middleware: validation failure gives 400; then intent classification (which
never throws — provider failure falls back); then the tool-based or
conversational path; a thrown error is mapped by the catch block — 429 when
its message contains "rate limit", 403 when it contains
"insufficient permissions", 500 otherwise — and a success is wrapped as a
200 envelope carrying the `AIResponse`. -/
def processAIRequestModel (tools : List AITool) (context : AIToolContext)
    (input userId : String) (enableTools : Option Bool)
    (intentOutcome : Option ProviderIntentReply)
    (chatOutcome : Except String ProviderChat) (s : Store) :
    HttpResponseRec × Store :=
  if ¬ validateAIRequest input userId then
    ({ status := 400, success := false, error := some "Invalid request data" }, s)
  else
    let intent := analyzeIntent intentOutcome input
    let result :=
      if enableTools != some false then
        processToolBasedRequest tools context intent.primary chatOutcome s
      else
        processConversationalRequest chatOutcome s
    match result with
    | .ok (aiResponse, s1) =>
      ({ status := 200, success := true, dataType := some aiResponse.type,
         tokensUsed := some aiResponse.tokensUsed,
         toolResults := some aiResponse.toolResults }, s1)
    | .error e =>
      if strIncludes e "rate limit" then
        ({ status := 429, success := false, error := some "Rate limit exceeded" }, s)
      else if strIncludes e "insufficient permissions" then
        ({ status := 403, success := false,
           error := some "Insufficient permissions" }, s)
      else
        ({ status := 500, success := false,
           error := some "Internal server error" }, s)

/-! ## Concrete sample data for witnesses and counterexamples -/

/-- The empty store. -/
def emptyStore : Store :=
  { organizations := [], projects := [], agents := [], columns := [],
    tasks := [], nextOid := 0 }

/-- Scenario A organization: u1 and u2 are both organization owners. -/
def scenarioAOrg : OrganizationData :=
  { _id := "aaaaaaaaaaaaaaaaaaaaaaaa", slug := "acme",
    members := [{ userId := "u1", role := "owner" },
                { userId := "u2", role := "owner" }],
    isActive := true }

/-- Scenario A project: private, with u1 as its only member. -/
def scenarioAProject : ProjectData :=
  { _id := "bbbbbbbbbbbbbbbbbbbbbbbb",
    organizationId := "aaaaaaaaaaaaaaaaaaaaaaaa",
    visibility := "private",
    members := [{ userId := "u1", role := "owner" }],
    isActive := true }

/-- Scenario A store. -/
def scenarioAStore : Store :=
  { emptyStore with organizations := [scenarioAOrg], projects := [scenarioAProject] }

/-- C5 witness column. -/
def c5Col : ColumnData :=
  { _id := "cccccccccccccccccccccccc", projectId := "bbbbbbbbbbbbbbbbbbbbbbbb",
    title := "Backlog", name := "backlog", position := 0, visibility := "public",
    createdBy := "u1" }

/-- C5 witness pre-existing task, at position 4. -/
def c5Task0 : TaskData :=
  { _id := "dddddddddddddddddddddddd", projectId := "bbbbbbbbbbbbbbbbbbbbbbbb",
    columnId := "cccccccccccccccccccccccc", title := "Existing", description := none,
    type := "custom", status := "backlog", priority := "medium", tokenEstimate := 100,
    position := 4, tags := [], createdBy := "u1" }

/-- C5 witness store. -/
def c5Store : Store :=
  { emptyStore with projects := [scenarioAProject], columns := [c5Col],
                    tasks := [c5Task0] }

/-- C5 witness creation request. -/
def c5Req : CreateTaskRequest :=
  { projectId := "bbbbbbbbbbbbbbbbbbbbbbbb", columnId := "cccccccccccccccccccccccc",
    title := "New task", description := none, type := "doc", status := none,
    priority := none, tokenEstimate := none, tags := none }

/-- C7 witness: the task of `c5Store` moved to position 3 of its column. -/
def c7MovedTask : TaskData :=
  { c5Task0 with position := 3 }

/-- C7 witness: the store after that move. -/
def c7StoreAfter : Store :=
  { c5Store with tasks := [c7MovedTask] }

/-- C9 witness agent. -/
def c9Agent : AgentData :=
  { _id := "eeeeeeeeeeeeeeeeeeeeeeee",
    organizationId := "aaaaaaaaaaaaaaaaaaaaaaaa",
    isActive := true, isPublic := false }

/-- C9 witness second column. -/
def c9Col2 : ColumnData :=
  { _id := "ffffffffffffffffffffffff", projectId := "bbbbbbbbbbbbbbbbbbbbbbbb",
    title := "Done", name := "done", position := 1, visibility := "public",
    createdBy := "u1" }

/-- C9 witness task living in the second column. -/
def c9Task2 : TaskData :=
  { c5Task0 with _id := "abababababababababababab",
                 columnId := "ffffffffffffffffffffffff", position := 0 }

/-- C9 witness store: one organization, project, agent, two columns, and one
task in each column. -/
def c9Store : Store :=
  { emptyStore with
      organizations := [scenarioAOrg],
      projects := [scenarioAProject],
      agents := [c9Agent],
      columns := [c5Col, c9Col2],
      tasks := [c5Task0, c9Task2] }

/-- C9 witness: the store after soft-deleting the organization. -/
def c9StoreOrgDel : Store :=
  { c9Store with organizations := [{ scenarioAOrg with isActive := false }] }

/-- C9 witness: the store after hard-deleting the first column. -/
def c9StoreColDel : Store :=
  { c9Store with tasks := [c9Task2], columns := [c9Col2] }

/-- A placeholder execution body for catalog entries whose behaviour no
statement below ever relies on (the runs in the witnesses and
counterexamples never reach these bodies). -/
def placeholderToolExec (toolName : String) :
    ToolParams → AIToolContext → Store → Except String ToolData × Store :=
  fun _ _ s => (Except.ok (ToolData.raw toolName), s)

/-- A concrete tool catalog carrying exactly the registered tool names (the
`create_task` entry is the modelled tool; the other entries' bodies are
placeholders that the statements never invoke). -/
def witnessToolCatalog : List AITool :=
  [{ name := "create_project", execute := placeholderToolExec "create_project" },
   { name := "get_project_info", execute := placeholderToolExec "get_project_info" },
   { name := "update_project", execute := placeholderToolExec "update_project" },
   createTaskTool,
   { name := "update_task", execute := placeholderToolExec "update_task" },
   { name := "delete_task", execute := placeholderToolExec "delete_task" },
   { name := "move_task", execute := placeholderToolExec "move_task" },
   { name := "search_tasks", execute := placeholderToolExec "search_tasks" },
   { name := "analyze_tasks", execute := placeholderToolExec "analyze_tasks" },
   { name := "create_column", execute := placeholderToolExec "create_column" },
   { name := "update_column", execute := placeholderToolExec "update_column" },
   { name := "delete_column", execute := placeholderToolExec "delete_column" },
   { name := "assign_agent", execute := placeholderToolExec "assign_agent" },
   { name := "run_agent", execute := placeholderToolExec "run_agent" },
   { name := "get_project_analytics", execute := placeholderToolExec "get_project_analytics" },
   { name := "get_task_stats", execute := placeholderToolExec "get_task_stats" }]

/-- The C3 run's proposed tool call payload. -/
def c3Params : ToolParams := [("target", JsonVal.str "all")]

/-- The C3 run's provider reply: one proposal naming an unregistered tool. -/
def c3Chat : ProviderChat :=
  { content := some "Deleting everything now.",
    tool_calls := [{ name := "delete_everything", argumentsParsed := some c3Params }],
    total_tokens := 42 }

/-- C6 witness tool-call parameters (Scenario B): only a title and a type,
no column, status, priority or token estimate. -/
def c6Params : ToolParams :=
  [("title", JsonVal.str "Fix login crash"), ("type", JsonVal.str "bug")]

/-- C6 witness tool context. -/
def c6Ctx : AIToolContext :=
  { userId := "u1", projectId := "bbbbbbbbbbbbbbbbbbbbbbbb",
    organizationId := "aaaaaaaaaaaaaaaaaaaaaaaa" }

/-- C6 witness store: the project with a single column named "backlog". -/
def c6Store : Store :=
  { emptyStore with projects := [scenarioAProject], columns := [c5Col] }

/-- C6 witness store with zero columns. -/
def c6NoColsStore : Store :=
  { emptyStore with projects := [scenarioAProject] }

/-- C6 witness: the task stored by the Scenario B run. -/
def c6Task : TaskData :=
  { _id := "oid_0", projectId := "bbbbbbbbbbbbbbbbbbbbbbbb",
    columnId := "cccccccccccccccccccccccc", title := "Fix login crash",
    description := none, type := "bug", status := "backlog",
    priority := "medium", tokenEstimate := 500, position := 0, tags := [],
    createdBy := "u1" }

/-- C6 witness: the store after the Scenario B run. -/
def c6StoreAfter : Store :=
  { c6Store with tasks := [c6Task], nextOid := 1 }

/-! ## List helper lemmas -/

theorem jsIndexOf_eq_neg_one_of_not_mem (a : String) :
    ∀ l : List String, a ∉ l → jsIndexOf l a = -1 := by
  intro l
  induction l with
  | nil => intro _; rfl
  | cons x xs ih =>
    intro h
    have hx : ¬ x = a := fun hxa => h (hxa ▸ List.mem_cons_self x xs)
    have hxs : a ∉ xs := fun hm => h (List.mem_cons_of_mem x hm)
    simp [jsIndexOf, hx, ih hxs]

theorem find?_map_replace (taskId : String) (t1 : TaskData)
    (ht1 : (t1._id == taskId) = true) :
    ∀ l : List TaskData, (l.find? (fun t => t._id == taskId)).isSome →
      (replaceTaskById l taskId t1).find? (fun t => t._id == taskId) = some t1 := by
  intro l
  induction l with
  | nil => intro h; simp [List.find?] at h
  | cons x xs ih =>
    intro h
    by_cases hx : (x._id == taskId) = true
    · simp [replaceTaskById, List.find?, hx, ht1]
    · have hx' : (x._id == taskId) = false := by
        cases hxx : (x._id == taskId) with
        | true => exact absurd hxx hx
        | false => rfl
      rw [List.find?_cons_of_neg _ (by simp [hx'])] at h
      rw [replaceTaskById, List.map_cons, if_neg (by simp [hx']),
        List.find?_cons_of_neg _ (by simp [hx'])]
      exact ih h

theorem updateFirstBy_map_eq {α : Type} (g : α → String) (k : String) (f : α → α)
    (hg : ∀ x, g (f x) = g x) :
    ∀ l : List α, (updateFirstBy (fun x => g x == k) f l).map g = l.map g := by
  intro l
  induction l with
  | nil => rfl
  | cons x xs ih =>
    by_cases hx : (g x == k) = true
    · simp [updateFirstBy, hx, hg]
    · simp [updateFirstBy, hx, ih]

theorem updateFirstBy_key_prop {α : Type} (g : α → String) (k : String) (f : α → α)
    (P : α → Prop) (hP : ∀ x, P (f x)) :
    ∀ l : List α, (l.map g).Nodup →
      ∀ y ∈ updateFirstBy (fun x => g x == k) f l, g y = k → P y := by
  intro l
  induction l with
  | nil => intro _ y hy; simp [updateFirstBy] at hy
  | cons x xs ih =>
    intro hnd y hy hk
    have hnd' : (xs.map g).Nodup := (List.nodup_cons.mp hnd).2
    by_cases hx : (g x == k) = true
    · simp only [updateFirstBy, hx, if_pos] at hy
      rcases List.mem_cons.mp hy with rfl | hy'
      · exact hP x
      · exfalso
        have hgx : g x = k := by simpa using hx
        have : g y ∈ xs.map g := List.mem_map_of_mem g hy'
        rw [hk, ← hgx] at this
        exact (List.nodup_cons.mp hnd).1 this
    · simp only [updateFirstBy, hx, if_neg, Bool.not_eq_true] at hy
      rcases List.mem_cons.mp hy with rfl | hy'
      · exact absurd (by simpa using hk) (by simpa using hx)
      · exact ih hnd' y hy' hk

theorem eraseP_key_not_mem {α : Type} (g : α → String) (k : String) :
    ∀ l : List α, (l.map g).Nodup →
      ∀ y ∈ l.eraseP (fun x => g x == k), g y ≠ k := by
  intro l
  induction l with
  | nil => intro _ y hy; simp [List.eraseP] at hy
  | cons x xs ih =>
    intro hnd y hy
    have hnd' : (xs.map g).Nodup := (List.nodup_cons.mp hnd).2
    by_cases hx : (g x == k) = true
    · simp only [List.eraseP_cons, hx, cond_true] at hy
      intro hk
      have hgx : g x = k := by simpa using hx
      have : g y ∈ xs.map g := List.mem_map_of_mem g hy
      rw [hk, ← hgx] at this
      exact (List.nodup_cons.mp hnd).1 this
    · have hxf : (g x == k) = false := by simpa using hx
      simp only [List.eraseP_cons, hxf, cond_false] at hy
      rcases List.mem_cons.mp hy with rfl | hy'
      · simpa using hx
      · exact ih hnd' y hy'

theorem mem_eraseP_of_key_ne {α : Type} (g : α → String) (k : String) :
    ∀ l : List α, ∀ y ∈ l, g y ≠ k → y ∈ l.eraseP (fun x => g x == k) := by
  intro l
  induction l with
  | nil => intro y hy; simp at hy
  | cons x xs ih =>
    intro y hy hk
    by_cases hx : (g x == k) = true
    · simp only [List.eraseP_cons, hx, cond_true]
      rcases List.mem_cons.mp hy with rfl | hy'
      · exact absurd (by simpa using hx) hk
      · exact hy'
    · have hxf : (g x == k) = false := by simpa using hx
      simp only [List.eraseP_cons, hxf, cond_false]
      rcases List.mem_cons.mp hy with rfl | hy'
      · exact List.mem_cons_self y _
      · exact List.mem_cons_of_mem x (ih y hy' hk)

theorem maxByPosGo_eq_or_mem (ts : List TaskData) :
    ∀ best : TaskData, maxByPosGo best ts = best ∨ maxByPosGo best ts ∈ ts := by
  induction ts with
  | nil => intro best; exact Or.inl rfl
  | cons x xs ih =>
    intro best
    rcases ih (if x.position > best.position then x else best) with h | h
    · rw [maxByPosGo, h]
      by_cases hx : x.position > best.position
      · simp [hx]
      · simp [hx]
    · exact Or.inr (List.mem_cons_of_mem x (by rw [maxByPosGo]; exact h))

theorem maxByPosGo_le (ts : List TaskData) :
    ∀ best : TaskData, best.position ≤ (maxByPosGo best ts).position := by
  induction ts with
  | nil => intro best; exact le_refl _
  | cons x xs ih =>
    intro best
    rw [maxByPosGo]
    refine le_trans ?_ (ih _)
    by_cases hx : x.position > best.position
    · simp [hx]; exact le_of_lt hx
    · simp [hx]

theorem maxByPosGo_mem_le (ts : List TaskData) :
    ∀ best : TaskData, ∀ t ∈ ts, t.position ≤ (maxByPosGo best ts).position := by
  induction ts with
  | nil => intro best t ht; simp at ht
  | cons x xs ih =>
    intro best t ht
    rcases List.mem_cons.mp ht with rfl | ht'
    · rw [maxByPosGo]
      refine le_trans ?_ (maxByPosGo_le xs _)
      by_cases hx : t.position > best.position
      · simp [hx]
      · simp [hx]; omega
    · rw [maxByPosGo]; exact ih _ t ht'

theorem maxByPosition_spec (l : List TaskData) (d : TaskData)
    (h : maxByPosition l = some d) :
    d ∈ l ∧ ∀ t ∈ l, t.position ≤ d.position := by
  cases l with
  | nil => simp [maxByPosition] at h
  | cons x xs =>
    rw [maxByPosition] at h
    have hd : d = maxByPosGo x xs := by injection h with h'; exact h'.symm
    constructor
    · rcases maxByPosGo_eq_or_mem xs x with h1 | h1
      · rw [hd, h1]; exact List.mem_cons_self x xs
      · rw [hd]; exact List.mem_cons_of_mem x h1
    · intro t ht
      rcases List.mem_cons.mp ht with rfl | ht'
      · rw [hd]; exact maxByPosGo_le xs t
      · rw [hd]; exact maxByPosGo_mem_le xs x t ht'

theorem find?_tools_none (n : String) :
    ∀ (tools : List AITool) (names : List String),
      tools.map (fun t => t.name) = names → n ∉ names →
      tools.find? (fun t => t.name == n) = none := by
  intro tools
  induction tools with
  | nil => intro names _ _; rfl
  | cons t ts ih =>
    intro names hmap hn
    subst hmap
    have h1 : ¬ t.name = n := by
      intro h; exact hn (h ▸ List.mem_cons_self _ _)
    have h2 : n ∉ ts.map (fun t => t.name) := fun hm => hn (List.mem_cons_of_mem _ hm)
    rw [List.find?_cons_of_neg _ (by simp [h1])]
    exact ih _ rfl h2

theorem firstPatternMatch_nil : ∀ ps : List String, firstPatternMatch ps [] = none := by
  intro ps
  induction ps with
  | nil => rfl
  | cons p ps ih => simp [firstPatternMatch, List.find?, ih]

/-! ## Claim theorems -/

/-- C8: over the ordered hierarchy [viewer, member, editor, admin, owner],
`hasMinimumRole a b` holds exactly when the index of `a` is at least the
index of `b`; in particular viewer lacks owner and owner has viewer; any
role name outside the list yields no access instead of throwing. -/
theorem claim_C8_role_hierarchy (a b : String) :
    (a ∈ getRoleHierarchy → b ∈ getRoleHierarchy →
      (hasMinimumRole a b = true ↔
        jsIndexOf getRoleHierarchy a ≥ jsIndexOf getRoleHierarchy b)) ∧
    (a ∉ getRoleHierarchy ∨ b ∉ getRoleHierarchy → hasMinimumRole a b = false) ∧
    hasMinimumRole "viewer" "owner" = false ∧
    hasMinimumRole "owner" "viewer" = true := by
  refine ⟨?_, ?_, by decide, by decide⟩
  · intro ha hb
    simp only [getRoleHierarchy, List.mem_cons, List.mem_singleton,
      List.not_mem_nil, or_false] at ha hb
    rcases ha with rfl | rfl | rfl | rfl | rfl <;>
      rcases hb with rfl | rfl | rfl | rfl | rfl <;> decide
  · intro h
    rcases h with h | h
    · have hu := jsIndexOf_eq_neg_one_of_not_mem a getRoleHierarchy h
      simp [hasMinimumRole, hu]
    · have hm := jsIndexOf_eq_neg_one_of_not_mem b getRoleHierarchy h
      simp [hasMinimumRole, hm]

/-- C8 witness: the iff discharged at roles inside the hierarchy, and the
no-access clause at a role outside it. -/
theorem claim_C8_role_hierarchy_witness :
    (hasMinimumRole "admin" "member" = true ↔
      jsIndexOf getRoleHierarchy "admin" ≥ jsIndexOf getRoleHierarchy "member") ∧
    hasMinimumRole "bogus" "viewer" = false :=
  ⟨(claim_C8_role_hierarchy "admin" "member").1 (by decide) (by decide),
   (claim_C8_role_hierarchy "bogus" "viewer").2.1 (Or.inl (by decide))⟩

/-- C10: every AuthorizationUtils access check is total and fail-closed —
a malformed (non-ObjectId) resource id makes the underlying store read
throw, and the catch resolves the check to a denial instead of
propagating; the check itself returns a plain record, never an error. -/
theorem claim_C10_fail_closed (s : Store) (id userId : String)
    (requiredRoles : List String) (h : isValidObjectId id = false) :
    (hasOrganizationAccess s id userId requiredRoles).hasAccess = false ∧
    (hasProjectAccess s id userId requiredRoles).hasAccess = false ∧
    (hasTaskAccess s id userId requiredRoles).hasAccess = false ∧
    (hasAgentAccess s id userId requiredRoles).hasAccess = false ∧
    (hasColumnAccess s id userId requiredRoles).hasAccess = false := by
  refine ⟨?_, ?_, ?_, ?_, ?_⟩
  · simp [hasOrganizationAccess, hasOrganizationAccessE, getOrganizationE, h,
      catchAccess, Bind.bind, Except.bind]
  · simp [hasProjectAccess, hasProjectAccessE, getProjectE, h,
      catchAccess, Bind.bind, Except.bind]
  · simp [hasTaskAccess, hasTaskAccessE, getTaskE, h,
      catchAccess, Bind.bind, Except.bind]
  · simp [hasAgentAccess, hasAgentAccessE, getAgentE, h,
      catchAccess, Bind.bind, Except.bind]
  · simp [hasColumnAccess, hasColumnAccessE, getColumnE, h,
      catchAccess, Bind.bind, Except.bind]

/-- C10 witness: a check denies on the malformed id "xyz". -/
theorem claim_C10_fail_closed_witness :
    (hasTaskAccess emptyStore "xyz" "u1" []).hasAccess = false :=
  (claim_C10_fail_closed emptyStore "xyz" "u1" [] (by decide)).2.2.1

/-- C1: on a private project, a user without project-level membership is
denied by `hasProjectAccess` whatever the organization memberships in the
store say — the organization role, owner included, is never substituted. -/
theorem claim_C1_private_project (s : Store) (projectId userId : String)
    (requiredRoles : List String) (project : ProjectData)
    (hget : getProjectE s projectId = .ok (some project))
    (hvis : project.visibility = "private")
    (hmem : project.members.find? (fun m => m.userId == userId) = none) :
    (hasProjectAccess s projectId userId requiredRoles).hasAccess = false := by
  unfold hasProjectAccess hasProjectAccessE
  rw [hget]
  by_cases horg : (hasOrganizationAccess s project.organizationId userId []).hasAccess
  · simp [Bind.bind, Except.bind, Pure.pure, Except.pure, horg, hvis, hmem,
      catchAccess]
  · simp [Bind.bind, Except.bind, Pure.pure, Except.pure, horg, catchAccess]

/-- C1 witness (Scenario A): u2 is an organization owner but not a member of
the private project, and the check denies access. -/
theorem claim_C1_private_project_witness :
    (hasProjectAccess scenarioAStore "bbbbbbbbbbbbbbbbbbbbbbbb" "u2" []).hasAccess
      = false :=
  claim_C1_private_project scenarioAStore "bbbbbbbbbbbbbbbbbbbbbbbb" "u2" []
    scenarioAProject rfl rfl rfl

/-- C4 counterexample: the fallback matcher does not assign confidence 0.6
to every exact keyword match — the input "Please create project Alpha"
matches the project keyword table exactly, yet the fallback returns
confidence 0.5. -/
theorem claim_C4_fallback_counterexample :
    containsProjectKeywords (strToLower "Please create project Alpha") = true ∧
    analyzeIntent none "Please create project Alpha" =
      { primary := "project_management", secondary := none, confidence := 0.5 } ∧
    (0.5 : ℚ) ≠ 0.6 := by
  refine ⟨by decide, rfl, by norm_num⟩

/-- C4 amended: when the provider call fails the classifier never propagates
the error and answers from the deterministic case-insensitive keyword
matcher, whose confidences are 0.6 for task-creation, task-management,
agent-assignment and agent-use keyword matches, 0.5 for project-management
keyword matches, and 0.3 as the default; for input
"create task for onboarding" the fallback returns task_creation at 0.6. -/
theorem claim_C4_fallback_amended (input : String) :
    (analyzeIntent none input = getFallbackIntent input) ∧
    (containsCreateTaskKeywords (strToLower input) = true →
      getFallbackIntent input = { primary := "task_creation", confidence := 0.6 }) ∧
    (containsCreateTaskKeywords (strToLower input) = false →
     containsTaskManagementKeywords (strToLower input) = true →
      getFallbackIntent input = { primary := "task_management", confidence := 0.6 }) ∧
    (containsCreateTaskKeywords (strToLower input) = false →
     containsTaskManagementKeywords (strToLower input) = false →
     containsAgentKeywords (strToLower input) = true →
      getFallbackIntent input = { primary := "agent_assignment", confidence := 0.6 }) ∧
    (containsCreateTaskKeywords (strToLower input) = false →
     containsTaskManagementKeywords (strToLower input) = false →
     containsAgentKeywords (strToLower input) = false →
     containsProjectKeywords (strToLower input) = true →
      getFallbackIntent input = { primary := "project_management", confidence := 0.5 }) ∧
    (containsCreateTaskKeywords (strToLower input) = false →
     containsTaskManagementKeywords (strToLower input) = false →
     containsAgentKeywords (strToLower input) = false →
     containsProjectKeywords (strToLower input) = false →
     containsAgentUseKeywords (strToLower input) = true →
      getFallbackIntent input = { primary := "agent_use", confidence := 0.6 }) ∧
    (containsCreateTaskKeywords (strToLower input) = false →
     containsTaskManagementKeywords (strToLower input) = false →
     containsAgentKeywords (strToLower input) = false →
     containsProjectKeywords (strToLower input) = false →
     containsAgentUseKeywords (strToLower input) = false →
      getFallbackIntent input = { primary := "general_answer", confidence := 0.3 }) ∧
    analyzeIntent none "create task for onboarding" =
      { primary := "task_creation", secondary := none, confidence := 0.6 } := by
  refine ⟨rfl, ?_, ?_, ?_, ?_, ?_, ?_, rfl⟩
  · intro h1; simp [getFallbackIntent, h1]
  · intro h1 h2; simp [getFallbackIntent, h1, h2]
  · intro h1 h2 h3; simp [getFallbackIntent, h1, h2, h3]
  · intro h1 h2 h3 h4; simp [getFallbackIntent, h1, h2, h3, h4]
  · intro h1 h2 h3 h4 h5; simp [getFallbackIntent, h1, h2, h3, h4, h5]
  · intro h1 h2 h3 h4 h5; simp [getFallbackIntent, h1, h2, h3, h4, h5]

/-- C4 witness: the amended theorem applied at the claim's own input. -/
theorem claim_C4_fallback_amended_witness :
    getFallbackIntent "create task for onboarding" =
      { primary := "task_creation", secondary := none, confidence := 0.6 } :=
  (claim_C4_fallback_amended "create task for onboarding").2.1 (by decide)

/-- C5: a successfully created task lands one past the column's existing
maximum position, and at position 0 when the column holds no tasks. -/
theorem claim_C5_position (s : Store) (data : CreateTaskRequest)
    (createdBy : String) (t : TaskData) (s' : Store) (p : Int)
    (h : createTask s data createdBy = Except.ok (t, s')) :
    (tasksInColumn s data.projectId data.columnId = [] → t.position = 0) ∧
    ((∀ u ∈ tasksInColumn s data.projectId data.columnId, u.position ≤ p) →
     (∃ u ∈ tasksInColumn s data.projectId data.columnId, u.position = p) →
     t.position = p + 1) := by
  unfold createTask at h
  split at h
  · cases h
  · split at h
    · cases h
    · split at h
      · cases h
      · split at h
        · cases h
        · simp only [Except.ok.injEq, Prod.mk.injEq] at h
          obtain ⟨ht, _⟩ := h
          subst ht
          constructor
          · intro hE
            simp [newTaskDoc, nextTaskPosition, hE, maxByPosition]
          · intro hub hex
            obtain ⟨u, hu, hup⟩ := hex
            have hne : tasksInColumn s data.projectId data.columnId ≠ [] := by
              intro hE; rw [hE] at hu; exact List.not_mem_nil u hu
            rcases hmax : maxByPosition (tasksInColumn s data.projectId data.columnId)
              with _ | d
            · cases hL : tasksInColumn s data.projectId data.columnId with
              | nil => exact absurd hL hne
              | cons x xs => rw [hL] at hmax; simp [maxByPosition] at hmax
            · obtain ⟨hdmem, hdge⟩ := maxByPosition_spec _ d hmax
              have h1 : d.position ≤ p := hub d hdmem
              have h2 : p ≤ d.position := hup ▸ hdge u hu
              have hdp : d.position = p := le_antisymm h1 h2
              simp [newTaskDoc, nextTaskPosition, hmax, hdp]

/-- C5 witness: in a column whose maximum position is 4 the new task gets
position 5, computed on a concrete store. -/
theorem claim_C5_position_witness :
    (createTask c5Store c5Req "u1" =
      Except.ok (newTaskDoc c5Store c5Req "u1",
        { c5Store with tasks := c5Store.tasks ++ [newTaskDoc c5Store c5Req "u1"],
                       nextOid := 1 })) ∧
    (newTaskDoc c5Store c5Req "u1").position = 4 + 1 :=
  ⟨rfl,
   (claim_C5_position c5Store c5Req "u1" (newTaskDoc c5Store c5Req "u1")
      { c5Store with tasks := c5Store.tasks ++ [newTaskDoc c5Store c5Req "u1"],
                     nextOid := 1 } 4 rfl).2
     (by decide) (by decide)⟩


/-- C7: `moveTask` with an explicit position stores that position as-is and
is idempotent — a second identical invocation finds the task already in the
target column and rewrites the same column and position. -/
theorem claim_C7_moveTask_idempotent (s : Store) (taskId columnId : String)
    (p : Int) (t1 : TaskData) (s1 : Store)
    (h : moveTask s taskId columnId (some p) = Except.ok (some t1, s1)) :
    t1.columnId = columnId ∧ t1.position = p ∧ t1 ∈ s1.tasks ∧
    ∃ t2 s2, moveTask s1 taskId columnId (some p) = Except.ok (some t2, s2) ∧
      t2.columnId = columnId ∧ t2.position = p ∧ t2 ∈ s2.tasks := by
  unfold moveTask at h
  by_cases hvt : ¬ isValidObjectId taskId
  · rw [if_pos hvt] at h; cases h
  rw [if_neg hvt] at h
  by_cases hvc : ¬ isValidObjectId columnId
  · rw [if_pos hvc] at h; cases h
  rw [if_neg hvc] at h
  rcases hc : s.columns.find? (fun c => c._id == columnId) with _ | c
  · rw [hc] at h; cases h
  rw [hc] at h
  rcases ht0 : s.tasks.find? (fun t => t._id == taskId) with _ | t0
  · rw [ht0] at h; cases h
  rw [ht0] at h
  simp only [Except.ok.injEq, Prod.mk.injEq, Option.some.injEq] at h
  obtain ⟨ht1, hs1⟩ := h
  have ht0id : (t0._id == taskId) = true := by
    have := List.find?_some (p := fun (t : TaskData) => t._id == taskId) ht0
    simpa using this
  have ht1id : (t1._id == taskId) = true := by
    rw [← ht1]; exact ht0id
  have hfind1 : s1.tasks.find? (fun t => t._id == taskId) = some t1 := by
    rw [← hs1, ht1]
    exact find?_map_replace taskId t1 ht1id s.tasks (by rw [ht0]; rfl)
  have hcols1 : s1.columns = s.columns := by rw [← hs1]
  have hmove2 : moveTask s1 taskId columnId (some p) =
      Except.ok (some (movedTaskDoc t1 columnId (moveTaskPosition s1 columnId (some p))),
        { s1 with tasks := (replaceTaskById s1.tasks taskId
          (movedTaskDoc t1 columnId (moveTaskPosition s1 columnId (some p)))) }) := by
    unfold moveTask
    rw [if_neg hvt, if_neg hvc, hcols1, hc, hfind1]
  have ht2id : ((movedTaskDoc t1 columnId
      (moveTaskPosition s1 columnId (some p)))._id == taskId) = true := ht1id
  refine ⟨by rw [← ht1]; rfl, by rw [← ht1]; rfl, ?_, ?_⟩
  · exact List.mem_of_find?_eq_some hfind1
  · refine ⟨_, _, hmove2, rfl, rfl, ?_⟩
    exact List.mem_of_find?_eq_some
      (find?_map_replace taskId _ ht2id s1.tasks (by rw [hfind1]; rfl))

/-- C7 witness: moving the concrete task to explicit position 3 stores
position 3 and a second identical move keeps column and position. -/
theorem claim_C7_moveTask_idempotent_witness :
    (moveTask c5Store "dddddddddddddddddddddddd" "cccccccccccccccccccccccc" (some 3) =
      Except.ok (some c7MovedTask, c7StoreAfter)) ∧
    c7MovedTask.position = 3 ∧ c7MovedTask ∈ c7StoreAfter.tasks :=
  ⟨rfl,
   (claim_C7_moveTask_idempotent c5Store "dddddddddddddddddddddddd"
      "cccccccccccccccccccccccc" 3 c7MovedTask c7StoreAfter rfl).2.1,
   (claim_C7_moveTask_idempotent c5Store "dddddddddddddddddddddddd"
      "cccccccccccccccccccccccc" 3 c7MovedTask c7StoreAfter rfl).2.2.1⟩

/-- C9: organizations, projects and agents are soft-deleted — the id list of
the stored records is unchanged and the targeted record (ids are unique per
collection) is left with `isActive = false` — while `deleteColumn` removes
every task of the column and then the column itself, and `deleteTask`
removes the task record. -/
theorem claim_C9_deletion_semantics (s : Store)
    (oid pid aid cid tid : String) :
    (∀ b s', deleteOrganization s oid = Except.ok (b, s') →
      s'.organizations.map (fun o => o._id) = s.organizations.map (fun o => o._id) ∧
      ((s.organizations.map (fun o => o._id)).Nodup →
        ∀ o ∈ s'.organizations, o._id = oid → o.isActive = false)) ∧
    (∀ b s', deleteProject s pid = Except.ok (b, s') →
      s'.projects.map (fun q => q._id) = s.projects.map (fun q => q._id) ∧
      ((s.projects.map (fun q => q._id)).Nodup →
        ∀ q ∈ s'.projects, q._id = pid → q.isActive = false)) ∧
    (∀ b s', deleteAgent s aid = Except.ok (b, s') →
      s'.agents.map (fun a => a._id) = s.agents.map (fun a => a._id) ∧
      ((s.agents.map (fun a => a._id)).Nodup →
        ∀ a ∈ s'.agents, a._id = aid → a.isActive = false)) ∧
    (∀ b s', deleteColumn s cid = Except.ok (b, s') →
      (∀ t ∈ s'.tasks, t.columnId ≠ cid) ∧
      (∀ t ∈ s.tasks, t.columnId ≠ cid → t ∈ s'.tasks) ∧
      ((s.columns.map (fun c => c._id)).Nodup → ∀ c ∈ s'.columns, c._id ≠ cid)) ∧
    (∀ b s', deleteTask s tid = Except.ok (b, s') →
      ((s.tasks.map (fun t => t._id)).Nodup → ∀ t ∈ s'.tasks, t._id ≠ tid) ∧
      (∀ t ∈ s.tasks, t._id ≠ tid → t ∈ s'.tasks)) := by
  refine ⟨?_, ?_, ?_, ?_, ?_⟩
  · intro b s' h
    unfold deleteOrganization at h
    split at h
    · cases h
    · simp only [Except.ok.injEq, Prod.mk.injEq] at h
      obtain ⟨_, hs⟩ := h
      subst hs
      refine ⟨updateFirstBy_map_eq (fun o => o._id) oid
        (fun o => { o with isActive := false }) (fun o => rfl) s.organizations, ?_⟩
      intro hnd o ho hk
      exact updateFirstBy_key_prop (fun o => o._id) oid
        (fun o => { o with isActive := false }) (fun o => o.isActive = false)
        (fun o => rfl) s.organizations hnd o ho hk
  · intro b s' h
    unfold deleteProject at h
    split at h
    · cases h
    · simp only [Except.ok.injEq, Prod.mk.injEq] at h
      obtain ⟨_, hs⟩ := h
      subst hs
      refine ⟨updateFirstBy_map_eq (fun q => q._id) pid
        (fun q => { q with isActive := false }) (fun q => rfl) s.projects, ?_⟩
      intro hnd q hq hk
      exact updateFirstBy_key_prop (fun q => q._id) pid
        (fun q => { q with isActive := false }) (fun q => q.isActive = false)
        (fun q => rfl) s.projects hnd q hq hk
  · intro b s' h
    unfold deleteAgent at h
    split at h
    · cases h
    · simp only [Except.ok.injEq, Prod.mk.injEq] at h
      obtain ⟨_, hs⟩ := h
      subst hs
      refine ⟨updateFirstBy_map_eq (fun a => a._id) aid
        (fun a => { a with isActive := false }) (fun a => rfl) s.agents, ?_⟩
      intro hnd a ha hk
      exact updateFirstBy_key_prop (fun a => a._id) aid
        (fun a => { a with isActive := false }) (fun a => a.isActive = false)
        (fun a => rfl) s.agents hnd a ha hk
  · intro b s' h
    unfold deleteColumn at h
    split at h
    · cases h
    · simp only [Except.ok.injEq, Prod.mk.injEq] at h
      obtain ⟨_, hs⟩ := h
      subst hs
      refine ⟨?_, ?_, ?_⟩
      · intro t ht
        have := List.of_mem_filter ht
        intro hk
        rw [hk] at this
        simp at this
      · intro t ht hk
        exact List.mem_filter_of_mem ht (by simpa using hk)
      · intro hnd c hc hk
        exact eraseP_key_not_mem (fun c => c._id) cid s.columns hnd c hc hk
  · intro b s' h
    unfold deleteTask at h
    split at h
    · cases h
    · simp only [Except.ok.injEq, Prod.mk.injEq] at h
      obtain ⟨_, hs⟩ := h
      subst hs
      refine ⟨?_, ?_⟩
      · intro hnd t ht
        exact eraseP_key_not_mem (fun t => t._id) tid s.tasks hnd t ht
      · intro t ht hk
        exact mem_eraseP_of_key_ne (fun t => t._id) tid s.tasks t ht hk

/-- C9 witness: concrete soft delete of an organization (record kept,
deactivated) and cascade hard delete of a column (its task gone, the other
column's task kept, the column gone). -/
theorem claim_C9_deletion_semantics_witness :
    (deleteOrganization c9Store "aaaaaaaaaaaaaaaaaaaaaaaa" =
      Except.ok (true, c9StoreOrgDel)) ∧
    ({ scenarioAOrg with isActive := false } : OrganizationData).isActive = false ∧
    (deleteColumn c9Store "cccccccccccccccccccccccc" =
      Except.ok (true, c9StoreColDel)) ∧
    c9Task2.columnId ≠ "cccccccccccccccccccccccc" ∧
    c9Task2 ∈ c9StoreColDel.tasks ∧
    c9Col2._id ≠ "cccccccccccccccccccccccc" :=
  ⟨rfl,
   ((claim_C9_deletion_semantics c9Store "aaaaaaaaaaaaaaaaaaaaaaaa"
       "bbbbbbbbbbbbbbbbbbbbbbbb" "eeeeeeeeeeeeeeeeeeeeeeee"
       "cccccccccccccccccccccccc" "dddddddddddddddddddddddd").1
     true c9StoreOrgDel rfl).2 (by decide)
     { scenarioAOrg with isActive := false } (by decide) rfl,
   rfl,
   ((claim_C9_deletion_semantics c9Store "aaaaaaaaaaaaaaaaaaaaaaaa"
       "bbbbbbbbbbbbbbbbbbbbbbbb" "eeeeeeeeeeeeeeeeeeeeeeee"
       "cccccccccccccccccccccccc" "dddddddddddddddddddddddd").2.2.2.1
     true c9StoreColDel rfl).1 c9Task2 (by decide),
   ((claim_C9_deletion_semantics c9Store "aaaaaaaaaaaaaaaaaaaaaaaa"
       "bbbbbbbbbbbbbbbbbbbbbbbb" "eeeeeeeeeeeeeeeeeeeeeeee"
       "cccccccccccccccccccccccc" "dddddddddddddddddddddddd").2.2.2.1
     true c9StoreColDel rfl).2.1 c9Task2 (by decide) (by decide),
   ((claim_C9_deletion_semantics c9Store "aaaaaaaaaaaaaaaaaaaaaaaa"
       "bbbbbbbbbbbbbbbbbbbbbbbb" "eeeeeeeeeeeeeeeeeeeeeeee"
       "cccccccccccccccccccccccc" "dddddddddddddddddddddddd").2.2.2.1
     true c9StoreColDel rfl).2.2 (by decide) c9Col2 (by decide)⟩

/-- C2 counterexample: after passing validation, a plain provider timeout is
not degraded to a 200 general_answer with tokensUsed 0 — the orchestration
controller rethrows it into its catch block, which answers HTTP 500 with
success false and no response payload. -/
theorem claim_C2_provider_failure_counterexample :
    (processAIRequestModel [] { userId := "u1", projectId := "p1", organizationId := "o1" }
        "summarize this project" "u1" none none
        (Except.error "Request timed out after 30000 ms") emptyStore).fst =
      { status := 500, success := false, error := some "Internal server error" } := by
  rfl

/-- C2 amended: a provider failure propagates out of `processWithTools` and
is mapped by the controller catch block to a distinguished HTTP failure —
429 when the error message mentions "rate limit", 403 when it mentions
"insufficient permissions", and 500 otherwise; the response is never a
success envelope. -/
theorem claim_C2_provider_failure_amended (tools : List AITool)
    (context : AIToolContext) (input userId : String) (enableTools : Option Bool)
    (intentOutcome : Option ProviderIntentReply) (e : String) (s : Store)
    (hval : validateAIRequest input userId = true) :
    (processAIRequestModel tools context input userId enableTools intentOutcome
        (Except.error e) s).fst.success = false ∧
    (strIncludes e "rate limit" = true →
      (processAIRequestModel tools context input userId enableTools intentOutcome
          (Except.error e) s).fst.status = 429) ∧
    (strIncludes e "rate limit" = false →
     strIncludes e "insufficient permissions" = true →
      (processAIRequestModel tools context input userId enableTools intentOutcome
          (Except.error e) s).fst.status = 403) ∧
    (strIncludes e "rate limit" = false →
     strIncludes e "insufficient permissions" = false →
      (processAIRequestModel tools context input userId enableTools intentOutcome
          (Except.error e) s).fst.status = 500) := by
  unfold processAIRequestModel
  rw [if_neg (by simp [hval])]
  by_cases het : enableTools != some false
  · simp only [het, if_true, processToolBasedRequest, processWithTools]
    refine ⟨?_, ?_, ?_, ?_⟩
    · by_cases h1 : strIncludes e "rate limit" <;>
        by_cases h2 : strIncludes e "insufficient permissions" <;>
        simp [h1, h2]
    · intro h1; simp [h1]
    · intro h1 h2; simp [h1, h2]
    · intro h1 h2; simp [h1, h2]
  · simp only [het, if_false, processConversationalRequest]
    refine ⟨?_, ?_, ?_, ?_⟩
    · by_cases h1 : strIncludes e "rate limit" <;>
        by_cases h2 : strIncludes e "insufficient permissions" <;>
        simp [h1, h2]
    · intro h1; simp [h1]
    · intro h1 h2; simp [h1, h2]
    · intro h1 h2; simp [h1, h2]

/-- C2 witness: a rate-limit message yields 429 with success false, on
concrete inputs. -/
theorem claim_C2_provider_failure_amended_witness :
    (processAIRequestModel [] { userId := "u1", projectId := "p1", organizationId := "o1" }
        "hello" "u1" none none
        (Except.error "429 rate limit exceeded") emptyStore).fst.status = 429 ∧
    (processAIRequestModel [] { userId := "u1", projectId := "p1", organizationId := "o1" }
        "hello" "u1" none none
        (Except.error "429 rate limit exceeded") emptyStore).fst.success = false :=
  ⟨(claim_C2_provider_failure_amended [] { userId := "u1", projectId := "p1", organizationId := "o1" }
      "hello" "u1" none none "429 rate limit exceeded" emptyStore rfl).2.1 rfl,
   (claim_C2_provider_failure_amended [] { userId := "u1", projectId := "p1", organizationId := "o1" }
      "hello" "u1" none none "429 rate limit exceeded" emptyStore rfl).1⟩

/-- C3 counterexample: for the unregistered proposal "delete_everything" the
HTTP response is indeed 200 with success true, but the `toolResults` entry
records the call as `success := true` with no error — the tool failure is
not recorded there (it lives only in the message text), refuting the
claim's last conjunct. -/
theorem claim_C3_unknown_tool_counterexample :
    (processAIRequestModel witnessToolCatalog
        { userId := "u1", projectId := "p1", organizationId := "o1" }
        "wipe it all" "u1" none none (Except.ok c3Chat) emptyStore).fst.status = 200 ∧
    (processAIRequestModel witnessToolCatalog
        { userId := "u1", projectId := "p1", organizationId := "o1" }
        "wipe it all" "u1" none none (Except.ok c3Chat) emptyStore).fst.success = true ∧
    (processAIRequestModel witnessToolCatalog
        { userId := "u1", projectId := "p1", organizationId := "o1" }
        "wipe it all" "u1" none none (Except.ok c3Chat) emptyStore).fst.toolResults =
      some [{ tool := "delete_everything", success := true,
              result := some c3Params, error := none }] ∧
    ((processAIRequestModel witnessToolCatalog
        { userId := "u1", projectId := "p1", organizationId := "o1" }
        "wipe it all" "u1" none none
        (Except.ok c3Chat) emptyStore).fst.toolResults.getD []).all
      (fun r => r.success) = true := by
  exact ⟨rfl, rfl, rfl, rfl⟩

/-- C3 amended: an unregistered tool name makes `executeTool` return the
typed failure record without throwing and without touching the store; the
surrounding request still answers 200 with success true, and the call is
recorded in `toolResults` — but as a hard-coded `success := true` entry with
no error, so the failure itself is visible only in the message text. -/
theorem claim_C3_unknown_tool_amended (tools : List AITool) (toolName : String)
    (parameters : ToolParams) (context : AIToolContext) (s : Store)
    (input userId : String) (intentOutcome : Option ProviderIntentReply)
    (content : Option String) (toks : Nat)
    (hnames : tools.map (fun t => t.name) = registeredToolNames)
    (hname : toolName ∉ registeredToolNames)
    (hval : validateAIRequest input userId = true) :
    executeTool tools toolName parameters context s =
      ({ success := false, data := none,
         error := some ("Tool \x27" ++ toolName ++ "\x27 not found") }, s) ∧
    (processAIRequestModel tools context input userId none intentOutcome
        (Except.ok { content := content,
                     tool_calls := [{ name := toolName, argumentsParsed := some parameters }],
                     total_tokens := toks }) s).fst.status = 200 ∧
    (processAIRequestModel tools context input userId none intentOutcome
        (Except.ok { content := content,
                     tool_calls := [{ name := toolName, argumentsParsed := some parameters }],
                     total_tokens := toks }) s).fst.success = true ∧
    (processAIRequestModel tools context input userId none intentOutcome
        (Except.ok { content := content,
                     tool_calls := [{ name := toolName, argumentsParsed := some parameters }],
                     total_tokens := toks }) s).fst.toolResults =
      some [{ tool := toolName, success := true,
              result := some parameters, error := none }] := by
  have hfind : tools.find? (fun t => t.name == toolName) = none :=
    find?_tools_none toolName tools registeredToolNames hnames hname
  have hexec : executeTool tools toolName parameters context s =
      ({ success := false, data := none,
         error := some ("Tool \x27" ++ toolName ++ "\x27 not found") }, s) := by
    unfold executeTool
    rw [hfind]
  refine ⟨hexec, ?_, ?_, ?_⟩ <;>
    simp [processAIRequestModel, hval, processToolBasedRequest, processWithTools,
      execToolCallsLoop, hexec]

/-- C3 amended witness: the concrete "delete_everything" run against the
catalog with the registered names. -/
theorem claim_C3_unknown_tool_amended_witness :
    executeTool witnessToolCatalog "delete_everything" c3Params
      { userId := "u1", projectId := "p1", organizationId := "o1" } emptyStore =
      ({ success := false, data := none,
         error := some "Tool \x27delete_everything\x27 not found" }, emptyStore) :=
  (claim_C3_unknown_tool_amended witnessToolCatalog "delete_everything" c3Params
    { userId := "u1", projectId := "p1", organizationId := "o1" } emptyStore
    "wipe it all" "u1" none (some "Deleting everything now.") 42
    rfl (by decide) rfl).1

theorem jsTruthyS_none : jsTruthyS none = false := rfl

theorem jsTruthyS_some (s : String) : jsTruthyS (some s) = (s != "") := rfl

theorem resolve_nil_not_truthy (params : ToolParams)
    (h : jsTruthyS (getParamStr params "columnId") = false) :
    jsTruthyS (createTaskResolveColumnId params []) = false := by
  unfold createTaskResolveColumnId
  rcases hcn : getParamStr params "columnName" with _ | cn
  · simp only [hcn, jsTruthyS_none, Bool.and_false, Bool.false_eq_true, if_false,
      ite_false]
    rcases hst : getParamStr params "status" with _ | st <;>
      simp [h, hst, firstPatternMatch_nil, jsTruthyS_none]
  · by_cases hc : cn = ""
    · subst hc
      simp only [hcn, jsTruthyS_some, bne_self_eq_false, Bool.and_false,
        Bool.false_eq_true, if_false, ite_false]
      rcases hst : getParamStr params "status" with _ | st <;>
        simp [h, hst, firstPatternMatch_nil, jsTruthyS_none]
    · have hcb : (cn != "") = true := by simpa using hc
      simp only [hcn, jsTruthyS_some, hcb, h, Bool.not_false, Bool.and_true,
        Bool.true_and, if_true, ite_true, List.find?_nil, Option.map_none']
      rcases hst : getParamStr params "status" with _ | st <;>
        simp [h, hst, firstPatternMatch_nil, jsTruthyS_none]

/-- C6: the create_task tool's column selection follows the claimed priority
order — stated as equality with `specResolveColumn`, the resolution written
from the claim's own wording (exact columnName match, then the status phrase
table, then generic patterns, then the first column by position); with zero
columns (and no explicit columnId) the tool fails with
"No columns found in project. Create columns first."; and in the Scenario B
configuration (a single column named "backlog", no explicit column, status,
priority or estimate) the stored task lands in that column with the defaults
status "backlog", priority "medium", tokenEstimate 500. -/
theorem claim_C6_create_task_column_resolution :
    (∀ (params : ToolParams) (columns : List ColumnData),
      jsTruthyS (getParamStr params "columnId") = false →
      createTaskResolveColumnId params columns = specResolveColumn params columns) ∧
    (∀ (params : ToolParams) (context : AIToolContext) (s : Store),
      jsTruthyS (getParamStr params "columnId") = false →
      isValidObjectId context.projectId = true →
      s.columns.filter (fun c => c.projectId == context.projectId) = [] →
      createTaskToolExecute params context s =
        (Except.error "No columns found in project. Create columns first.", s)) ∧
    (∀ (params : ToolParams) (context : AIToolContext) (s : Store)
        (proj : ProjectData) (col : ColumnData),
      getParamStr params "columnId" = none →
      getParamStr params "columnName" = none →
      getParamStr params "status" = none →
      getParamStr params "priority" = none →
      getParamInt params "tokenEstimate" = none →
      isValidObjectId context.projectId = true →
      s.columns.filter (fun c => c.projectId == context.projectId) = [col] →
      col.name = "backlog" →
      isValidObjectId col._id = true →
      s.projects.find? (fun p => p._id == context.projectId && p.isActive) = some proj →
      s.columns.find? (fun c => c._id == col._id) = some col →
      ∃ task s1, createTaskToolExecute params context s =
          (Except.ok (ToolData.task task), s1) ∧
        task.columnId = col._id ∧ task.status = "backlog" ∧
        task.priority = "medium" ∧ task.tokenEstimate = 500 ∧ task ∈ s1.tasks) := by
  refine ⟨?_, ?_, ?_⟩
  · intro params columns h
    unfold createTaskResolveColumnId specResolveColumn
    rcases hcn : getParamStr params "columnName" with _ | cn
    · simp only [hcn, h, jsTruthyS_none, Bool.not_false, Bool.and_false,
        Bool.false_and, Bool.and_true, Bool.true_and, if_false, if_true,
        Bool.false_eq_true, ite_false]
    · by_cases hc : cn = ""
      · subst hc
        simp only [hcn, h, jsTruthyS_none, jsTruthyS_some, Bool.not_false,
          bne_self_eq_false, Bool.and_false, Bool.false_eq_true, if_false, ite_false]
      · have hcb : (cn != "") = true := by simpa using hc
        simp only [hcn, h, jsTruthyS_none, jsTruthyS_some, Bool.not_false, hcb,
          Bool.and_true, Bool.true_and, if_true, ite_true]
  · intro params context s h hvp hcols
    unfold createTaskToolExecute
    rw [if_neg (by simp [h])]
    unfold getColumnsByProjectE
    rw [if_pos (by simp [hvp]), hcols]
    show createTaskWithResolved params context s (createTaskResolveColumnId params
      (sortColumnsByPosition [])) = _
    unfold createTaskWithResolved
    rw [if_pos (by simp [resolve_nil_not_truthy params h, sortColumnsByPosition])]
  · intro params context s proj col h0 h1 h2 h3 h4 hvp hfilter hname hvc hproj hcol
    have hidne : (col._id != "") = true := by
      rcases hid : col._id with ⟨cs⟩
      cases cs with
      | nil => rw [hid] at hvc; exact absurd hvc (by decide)
      | cons c rest => simp [bne, BEq.beq, String.ext_iff]
    have hmatch : colContainsPattern "backlog" col = true := by
      unfold colContainsPattern
      rw [hname]
      have hb : strIncludes (strToLower "backlog") "backlog" = true := by decide
      rw [hb, Bool.or_true]
    have hfind : List.find? (colContainsPattern "backlog") [col] = some col :=
      List.find?_cons_of_pos _ hmatch
    have hfpm : firstPatternMatch ["backlog", "todo", "ready", "new"] [col] =
        some col._id := by
      unfold firstPatternMatch
      rw [hfind]
    have hresolve : createTaskResolveColumnId params [col] = some col._id := by
      unfold createTaskResolveColumnId
      rw [h0, h1, h2, hfpm]
      simp [jsTruthyS_none, jsTruthyS_some, hidne]
    unfold createTaskToolExecute
    rw [if_neg (by simp [h0, jsTruthyS_none]), getColumnsByProjectE,
      if_pos (by simp [hvp]), hfilter]
    show ∃ task s1, createTaskWithResolved params context s
        (createTaskResolveColumnId params (sortColumnsByPosition [col])) =
        (Except.ok (ToolData.task task), s1) ∧
      task.columnId = col._id ∧ task.status = "backlog" ∧ task.priority = "medium" ∧
      task.tokenEstimate = 500 ∧ task ∈ s1.tasks
    have hsort : sortColumnsByPosition [col] = [col] := rfl
    rw [hsort, hresolve]
    unfold createTaskWithResolved
    rw [if_neg (by simp [jsTruthyS_some, hidne])]
    unfold createTask
    simp only [Option.getD_some, hvp, hvc, hproj, hcol, not_true, ite_false,
      if_false, Bool.not_true, not_false_iff, ite_true, if_true]
    refine ⟨_, _, rfl, ?_, ?_, ?_, ?_, ?_⟩
    · rfl
    · simp [newTaskDoc, jsOrStr, h2]
    · simp [newTaskDoc, jsOrStr, h3]
    · simp [newTaskDoc, jsOrInt, h4]
    · simp [newTaskDoc]

/-- C6 witness: the concrete Scenario B run stores the task in the single
"backlog" column with all defaults, the zero-column store makes the tool
fail, and the resolution refinement discharged on the concrete parameters. -/
theorem claim_C6_create_task_column_resolution_witness :
    (createTaskToolExecute c6Params c6Ctx c6Store =
      (Except.ok (ToolData.task c6Task), c6StoreAfter)) ∧
    c6Task.columnId = "cccccccccccccccccccccccc" ∧
    c6Task.status = "backlog" ∧ c6Task.priority = "medium" ∧
    c6Task.tokenEstimate = 500 ∧
    (createTaskToolExecute c6Params c6Ctx c6NoColsStore =
      (Except.error "No columns found in project. Create columns first.",
        c6NoColsStore)) ∧
    createTaskResolveColumnId c6Params [c5Col] = specResolveColumn c6Params [c5Col] :=
  ⟨rfl, rfl, rfl, rfl, rfl,
   claim_C6_create_task_column_resolution.2.1 c6Params c6Ctx c6NoColsStore
     (by decide) (by decide) rfl,
   claim_C6_create_task_column_resolution.1 c6Params [c5Col] (by decide)⟩
